import Mathlib

/-
Verification of this repository's own code: the Jupyter-notebook functions
(tuning objective, RaySGD data and config builders, the training drivers)
and the binder shell script are embedded shallowly below.  Real arithmetic
performed by the Python code on floats is modelled over the rationals;
Python operations that can raise (floor division by zero, reciprocal of
zero) return Option; effectful training loops are modelled as the trace of
library calls they issue, in program order.
-/

/-! ### Tuning notebook: the closed-form objective

Source (tuning notebook):
  def objective(step, alpha, beta):
      return (0.1 + alpha * step / 100)**(-1) + beta * 0.1
A float raised to the power -1 is its reciprocal, and Python raises
ZeroDivisionError when the base is zero, hence the Option result. -/

def objective (step alpha beta : ℚ) : Option ℚ :=
  if (1/10 + alpha * step / 100) = 0 then none
  else some ((1/10 + alpha * step / 100)⁻¹ + beta * (1/10))

/-- Source: training_function reports objective(step, alpha, beta) as
mean_loss for step in range(10). -/
def training_function (alpha beta : ℚ) : List (Option ℚ) :=
  (List.range 10).map (fun step => objective step alpha beta)

/-! ### RaySGD notebook: dataset generator

Source:
  def linear_dataset(size=100):
      x = np.random.rand(size)
      y = 2 * x
      x = x.reshape((-1, 1))
      y = y.reshape((-1, 1))
      return x, y
The library's random vector np.random.rand(size) is modelled by an
arbitrary value source rand : Nat -> Rat sampled at indices 0..size-1;
reshape((-1, 1)) turns a length-n vector into an n-by-1 matrix. -/

def np_random_rand (size : Nat) (rand : Nat → ℚ) : List ℚ :=
  (List.range size).map rand

def reshape_col (v : List ℚ) : List (List ℚ) :=
  v.map (fun a => [a])

def linear_dataset (size : Nat) (rand : Nat → ℚ) : List (List ℚ) × List (List ℚ) :=
  let x := np_random_rand size rand
  let y := x.map (fun a => 2 * a)
  (reshape_col x, reshape_col y)

/-! ### RaySGD notebook: configuration builders

Source constants NUM_TRAIN_SAMPLES = 1000, NUM_TEST_SAMPLES = 400, and
  def create_config(batch_size):
      return ... steps_per_epoch: NUM_TRAIN_SAMPLES // batch_size ...
               ... steps: NUM_TEST_SAMPLES // batch_size ...
  def create_diamonds_config(batch_size):
      return ... steps_per_epoch: 40000 // batch_size ...
               ... steps: 13940 // batch_size ...
Python // is floor division (Int.fdiv) and raises ZeroDivisionError on a
zero divisor, hence pyFloorDiv returns Option. -/

def NUM_TRAIN_SAMPLES : Int := 1000

def NUM_TEST_SAMPLES : Int := 400

def pyFloorDiv (a b : Int) : Option Int :=
  if b = 0 then none else some (Int.fdiv a b)

structure FitConfig where
  steps_per_epoch : Int
deriving DecidableEq

structure EvaluateConfig where
  steps : Int
deriving DecidableEq

structure TrainerConfig where
  batch_size : Int
  fit_config : FitConfig
  evaluate_config : EvaluateConfig
deriving DecidableEq

def create_config (batch_size : Int) : Option TrainerConfig := do
  let spe ← pyFloorDiv NUM_TRAIN_SAMPLES batch_size
  let st ← pyFloorDiv NUM_TEST_SAMPLES batch_size
  some ⟨batch_size, ⟨spe⟩, ⟨st⟩⟩

def create_diamonds_config (batch_size : Int) : Option TrainerConfig := do
  let spe ← pyFloorDiv 40000 batch_size
  let st ← pyFloorDiv 13940 batch_size
  some ⟨batch_size, ⟨spe⟩, ⟨st⟩⟩

/-! ### RaySGD notebook: the sanity check in train_example

Source (tail of train_example, after two trainer.train() calls):
  dloss = end_stats["validation_loss"] - start_stats["validation_loss"]
  dmse = (end_stats["validation_mean_squared_error"] -
          start_stats["validation_mean_squared_error"])
  if dloss > 0 or dmse > 0:
      print("training sanity check failed. loss increased!")
  else:
      print("success!")
The stats dictionaries returned by trainer.validate() are modelled by a
record of the two fields the function reads, and the printed message is
the observable output of the branch. -/

structure ValStats where
  validation_loss : ℚ
  validation_mean_squared_error : ℚ
deriving DecidableEq

def train_example_sanity_msg (start_stats end_stats : ValStats) : String :=
  if 0 < end_stats.validation_loss - start_stats.validation_loss ∨
     0 < end_stats.validation_mean_squared_error - start_stats.validation_mean_squared_error
  then "training sanity check failed. loss increased!"
  else "success!"

/-! ### DQN notebook: the training loop as a trace of library calls

Source (04a notebook, DQN cell, N_ITER = 50):
  for n in range(N_ITER):
      result = trainer.train()
      ...
      last_checkpoint = trainer.save(checkpoint_dir)
      print(fmt.format(n, min, mean, max))
  print(f'last checkpoint file: ...')
Each iteration issues one trainer.train() call, one trainer.save() call
(writing a checkpoint file), and one print; a final print follows the
loop.  The loop is modelled by the list of calls it issues, in order. -/

inductive RayCall where
  | trainCall
  | saveCall
  | printCall
deriving DecidableEq

def N_ITER : Nat := 50

def dqn_training_loop (nIter : Nat) : List RayCall :=
  ((List.range nIter).bind
    (fun _ => [RayCall.trainCall, RayCall.saveCall, RayCall.printCall])) ++
  [RayCall.printCall]

/-- Source: trainer.save(checkpoint_dir) writes a checkpoint file to disk;
train and print do not write durable state. -/
def rayWritesDurableState : RayCall → Bool
  | RayCall.saveCall => true
  | _ => false

/-! ### MLflow notebook: train_diamonds_mlflow as a trace of library calls

Source:
  def train_diamonds_mlflow(...):
      trainer = TFTrainer(...)
      start_stats = trainer.validate()
      print(start_stats)
      ml_run = client.create_run(experiment_id)
      for i in range(32):
          train_stats = trainer.train()
          if i % 2 == 0:
              val_stats = trainer.validate()
              client.log_metric(..., "validation_loss", ..., step=i)
              client.log_metric(..., "training_loss", ..., step=i)
      client.set_terminated(ml_run.info.run_id)
      end_stats = trainer.validate()
      print(end_stats)
create_run, log_metric and set_terminated write records to the MLflow
tracking store, which outlives the notebook session. -/

inductive MLCall where
  | validateCall
  | createRunCall
  | trainCall
  | logMetricCall (metricName : String)
  | setTerminatedCall
deriving DecidableEq

def train_diamonds_mlflow_trace : List MLCall :=
  [MLCall.validateCall, MLCall.createRunCall] ++
  ((List.range 32).bind (fun i =>
    [MLCall.trainCall] ++
      (if i % 2 = 0 then
        [MLCall.validateCall,
         MLCall.logMetricCall "validation_loss",
         MLCall.logMetricCall "training_loss"]
      else []))) ++
  [MLCall.setTerminatedCall, MLCall.validateCall]

def writesDurableState : MLCall → Bool
  | MLCall.createRunCall => true
  | MLCall.logMetricCall _ => true
  | MLCall.setTerminatedCall => true
  | _ => false

def isLogMetric : MLCall → Bool
  | MLCall.logMetricCall _ => true
  | _ => false

/-! ### Binder shell script: the sed placeholder substitution

Source (start script):
  sed -i -e "s|DASK_DASHBOARD_URL|$\x7bJUPYTERHUB_BASE_URL\x7duser/$\x7bJUPYTERHUB_USER\x7d/proxy/8787|g" binder/jupyterlab-workspace.json
sed scans the file left to right and replaces each leftmost,
non-overlapping occurrence of the pattern with the replacement; the
replacement text itself is not rescanned.  matchesAt decides whether the
pattern starts at the head of a suffix; sedGo walks the text one
character at a time, with a skip counter consuming the remaining
characters of a match already replaced. -/

def matchesAt (pat s : List Char) : Bool :=
  match pat, s with
  | [], _ => true
  | _ :: _, [] => false
  | p :: ps, c :: cs => p == c && matchesAt ps cs

def occursIn (pat : List Char) : List Char → Bool
  | [] => matchesAt pat []
  | c :: rest => matchesAt pat (c :: rest) || occursIn pat rest

def sedGo (pat repl : List Char) : Nat → List Char → List Char
  | _, [] => []
  | k + 1, _ :: rest => sedGo pat repl k rest
  | 0, c :: rest =>
      if pat.length ≠ 0 ∧ matchesAt pat (c :: rest) = true then
        repl ++ sedGo pat repl (pat.length - 1) rest
      else
        c :: sedGo pat repl 0 rest

def sedGsub (pat repl s : List Char) : List Char :=
  sedGo pat repl 0 s

def placeholderChars : List Char := "DASK_DASHBOARD_URL".toList

def proxy_location (baseUrl user : List Char) : List Char :=
  baseUrl ++ "user/".toList ++ user ++ "/proxy/8787".toList

def rewrite_workspace (baseUrl user content : List Char) : List Char :=
  sedGsub placeholderChars (proxy_location baseUrl user) content

/-! ### Lemmas about the sed substitution -/

lemma matchesAt_append_self (pat u : List Char) : matchesAt pat (pat ++ u) = true := by
  induction pat with
  | nil => rfl
  | cons p ps ih => simp [matchesAt, ih]

lemma sedGo_skip (pat repl : List Char) :
    ∀ t u : List Char, sedGo pat repl t.length (t ++ u) = sedGo pat repl 0 u := by
  intro t
  induction t with
  | nil => intro u; rfl
  | cons c t2 ih =>
    intro u
    simpa [sedGo] using ih u

lemma sedGo_not_occurs (pat repl : List Char) :
    ∀ s : List Char, occursIn pat s = false → sedGo pat repl 0 s = s := by
  intro s
  induction s with
  | nil => intro _; rfl
  | cons c rest ih =>
    intro h
    rw [occursIn, Bool.or_eq_false_iff] at h
    simp [sedGo, h.1, ih h.2]

lemma sedGo_replace (pat repl : List Char) (hpat : pat ≠ []) :
    ∀ a b : List Char,
      (∀ i, i < a.length → matchesAt pat ((a ++ pat ++ b).drop i) = false) →
      sedGo pat repl 0 (a ++ pat ++ b) = a ++ repl ++ sedGo pat repl 0 b := by
  intro a
  induction a with
  | nil =>
    intro b _
    obtain ⟨p, ps, rfl⟩ : ∃ p ps, pat = p :: ps := by
      cases pat with
      | nil => exact absurd rfl hpat
      | cons p ps => exact ⟨p, ps, rfl⟩
    have hm : matchesAt (p :: ps) ((p :: ps) ++ b) = true := matchesAt_append_self _ _
    have hcond : (p :: ps).length ≠ 0 ∧ matchesAt (p :: ps) (p :: (ps ++ b)) = true := by
      refine ⟨by simp, ?_⟩
      simpa using hm
    show sedGo (p :: ps) repl 0 (p :: (ps ++ b)) = [] ++ repl ++ sedGo (p :: ps) repl 0 b
    rw [sedGo, if_pos hcond]
    have hskip : sedGo (p :: ps) repl ps.length (ps ++ b) = sedGo (p :: ps) repl 0 b :=
      sedGo_skip _ _ ps b
    simp only [List.length_cons, Nat.add_sub_cancel, hskip, List.nil_append]
  | cons c a2 ih =>
    intro b h
    have h0 : matchesAt pat (c :: (a2 ++ pat ++ b)) = false := by
      have := h 0 (by simp)
      simpa using this
    have hrec := ih b (fun i hi => by
      have := h (i + 1) (by simpa using Nat.succ_lt_succ hi)
      simpa using this)
    show sedGo pat repl 0 (c :: (a2 ++ pat ++ b)) = (c :: a2) ++ repl ++ sedGo pat repl 0 b
    rw [sedGo, if_neg (fun hc => by rw [h0] at hc; exact Bool.false_ne_true hc.2), hrec]
    rfl

/-- C4: running the repository's shell script replaces every occurrence of
the placeholder string DASK_DASHBOARD_URL in binder/jupyterlab-workspace.json
with the proxy location built from JUPYTERHUB_BASE_URL and JUPYTERHUB_USER,
and leaves every other character of the file unchanged: content with no
occurrence of the placeholder is returned verbatim, and content of the form
a ++ placeholder ++ b, whose leftmost occurrence starts right after a,
rewrites to a ++ proxy location ++ the rewrite of b. -/
theorem C4_sed_replaces_placeholder (baseUrl user s a b : List Char) :
    (occursIn placeholderChars s = false → rewrite_workspace baseUrl user s = s) ∧
    ((∀ i, i < a.length →
        matchesAt placeholderChars ((a ++ placeholderChars ++ b).drop i) = false) →
      rewrite_workspace baseUrl user (a ++ placeholderChars ++ b) =
        a ++ proxy_location baseUrl user ++ rewrite_workspace baseUrl user b) := by
  constructor
  · intro h
    exact sedGo_not_occurs _ _ s h
  · intro h
    exact sedGo_replace placeholderChars (proxy_location baseUrl user) (by decide) a b h

/-- C4 witness: on the concrete content ab ++ DASK_DASHBOARD_URL ++ cd with
base URL B and user U, the script yields ab ++ Buser/U/proxy/8787 ++ cd, and
placeholder-free content xy is left unchanged. -/
theorem C4_sed_witness :
    (occursIn placeholderChars "xy".toList = false ∧
      rewrite_workspace "B".toList "U".toList "xy".toList = "xy".toList) ∧
    rewrite_workspace "B".toList "U".toList ("ab".toList ++ placeholderChars ++ "cd".toList) =
      "ab".toList ++ proxy_location "B".toList "U".toList ++
        rewrite_workspace "B".toList "U".toList "cd".toList := by
  refine ⟨⟨by decide, (C4_sed_replaces_placeholder "B".toList "U".toList "xy".toList [] []).1 (by decide)⟩, ?_⟩
  exact (C4_sed_replaces_placeholder "B".toList "U".toList [] "ab".toList "cd".toList).2 (by decide)

/-! ### Claims about the training functions -/

/-- C1 counterexample: the claim says no repository function branches on a
computed result to validate it, and in particular that no run of
train_example performs a conditional check of the training outcome.  But
train_example prints a failure message exactly when the validation stats
worsened and a success message otherwise: two runs that differ only in the
library-computed training outcome produce different messages, so the
function does branch on the outcome. -/
theorem C1_counterexample :
    train_example_sanity_msg ⟨0, 0⟩ ⟨1, 0⟩ =
      "training sanity check failed. loss increased!" ∧
    train_example_sanity_msg ⟨1, 1⟩ ⟨0, 0⟩ = "success!" := by
  constructor
  · simp [train_example_sanity_msg]
  · simp [train_example_sanity_msg]

/-- C1 amended: the repository's functions contain no recovery or retry
logic, but train_example does validate the training outcome: it prints the
failure message exactly when the validation loss or the validation mean
squared error increased from start_stats to end_stats, and prints success
otherwise. -/
theorem C1_amended_sanity_check (s e : ValStats) :
    train_example_sanity_msg s e = "training sanity check failed. loss increased!" ↔
      s.validation_loss < e.validation_loss ∨
        s.validation_mean_squared_error < e.validation_mean_squared_error := by
  unfold train_example_sanity_msg
  split_ifs with h
  · simp only [sub_pos] at h
    exact iff_of_true rfl h
  · simp only [sub_pos] at h
    exact iff_of_false (by decide) h

/-- C2 counterexample: the claim says the repository implements no
closed-form computation whose output could be verified independently of the
external libraries; but objective, defined by repository code alone,
computes (0.1 + 1*1/100)^(-1) + 1*0.1 = 1011/110 at step 1, alpha 1,
beta 1, with no library involved. -/
theorem C2_counterexample : objective 1 1 1 = some (1011 / 110) := by
  norm_num [objective]

/-- C2 amended: no algorithm is implemented by the repository's own code
except an original closed-form computation in the tuning notebook: whenever
objective(step, alpha, beta) returns a value v, that value satisfies the
closed-form law (v - beta/10) * (0.1 + alpha*step/100) = 1, verifiable
independently of the external libraries. -/
theorem C2_amended_closed_form (step alpha beta v : ℚ)
    (h : objective step alpha beta = some v) :
    (v - beta * (1/10)) * (1/10 + alpha * step / 100) = 1 := by
  unfold objective at h
  by_cases hd : (1/10 + alpha * step / 100) = 0
  · rw [if_pos hd] at h
    cases h
  · rw [if_neg hd] at h
    have hv : (1/10 + alpha * step / 100)⁻¹ + beta * (1/10) = v := Option.some.inj h
    have hsub : v - beta * (1/10) = (1/10 + alpha * step / 100)⁻¹ := by
      rw [← hv]; ring
    rw [hsub]
    exact inv_mul_cancel₀ hd

/-- C2 amended witness: the closed-form law evaluated at step 1, alpha 1,
beta 1, v = 1011/110. -/
theorem C2_amended_witness :
    ((1011 / 110 : ℚ) - 1 * (1/10)) * (1/10 + 1 * 1 / 100) = 1 :=
  C2_amended_closed_form 1 1 1 (1011 / 110) (by norm_num [objective])

/-! ### Lemmas about linear_dataset -/

lemma linear_dataset_fst (size : Nat) (rand : Nat → ℚ) :
    (linear_dataset size rand).1 = (List.range size).map (fun n => [rand n]) := by
  simp [linear_dataset, reshape_col, np_random_rand, List.map_map, Function.comp]

lemma linear_dataset_snd (size : Nat) (rand : Nat → ℚ) :
    (linear_dataset size rand).2 = (List.range size).map (fun n => [2 * rand n]) := by
  simp [linear_dataset, reshape_col, np_random_rand, List.map_map, Function.comp]

lemma getD_map_range (f : Nat → List ℚ) (size i : Nat) (h : i < size) :
    ((List.range size).map f).getD i [] = f i := by
  rw [List.getD_eq_getElem _ _ (by simpa using h)]
  simp

/-- C3: for every size, linear_dataset(size) returns a pair of arrays each
of shape (size, 1), and for every index i below size the i-th row of y is
twice the i-th row of x — row i of x is the library's i-th random value and
row i of y is exactly its double. -/
theorem C3_linear_dataset (size : Nat) (rand : Nat → ℚ) :
    (linear_dataset size rand).1.length = size ∧
    (linear_dataset size rand).2.length = size ∧
    (∀ row ∈ (linear_dataset size rand).1, row.length = 1) ∧
    (∀ row ∈ (linear_dataset size rand).2, row.length = 1) ∧
    ∀ i, i < size →
      (linear_dataset size rand).1.getD i [] = [rand i] ∧
      (linear_dataset size rand).2.getD i [] = [2 * rand i] := by
  refine ⟨?_, ?_, ?_, ?_, ?_⟩
  · simp [linear_dataset_fst]
  · simp [linear_dataset_snd]
  · intro row hrow
    rw [linear_dataset_fst] at hrow
    simp only [List.mem_map] at hrow
    obtain ⟨n, _, rfl⟩ := hrow
    rfl
  · intro row hrow
    rw [linear_dataset_snd] at hrow
    simp only [List.mem_map] at hrow
    obtain ⟨n, _, rfl⟩ := hrow
    rfl
  · intro i hi
    constructor
    · rw [linear_dataset_fst]
      exact getD_map_range _ size i hi
    · rw [linear_dataset_snd]
      exact getD_map_range _ size i hi

/-- C3 witness: at size 2 with the concrete value source sending n to n,
row 1 of x is the singleton 1 and row 1 of y is the singleton 2. -/
theorem C3_linear_dataset_witness :
    (linear_dataset 2 (fun n => (n : ℚ))).1.getD 1 [] = [(1 : ℚ)] ∧
    (linear_dataset 2 (fun n => (n : ℚ))).2.getD 1 [] = [(2 : ℚ)] := by
  have h := (C3_linear_dataset 2 (fun n => (n : ℚ))).2.2.2.2 1 (by decide)
  constructor
  · rw [h.1]; norm_num
  · rw [h.2]; norm_num

/-- C5: for every alpha above 0, every beta, and all steps s1, s2 with
0 at most s1 and s1 below s2, the denominator 0.1 + alpha * step / 100 is
strictly positive at both steps, objective is defined (returns some value)
at both, and the value at s2 is strictly below the value at s1: the
mean_loss reported by training_function is strictly decreasing in the step
index. -/
theorem C5_objective_strictly_decreasing (alpha beta s1 s2 : ℚ)
    (ha : 0 < alpha) (h0 : 0 ≤ s1) (h12 : s1 < s2) :
    0 < 1/10 + alpha * s1 / 100 ∧
    0 < 1/10 + alpha * s2 / 100 ∧
    ∃ v1 v2, objective s1 alpha beta = some v1 ∧
      objective s2 alpha beta = some v2 ∧ v2 < v1 := by
  have hd1 : 0 < 1/10 + alpha * s1 / 100 := by
    have h1 : 0 ≤ alpha * s1 := mul_nonneg ha.le h0
    have h2 : 0 ≤ alpha * s1 / 100 := by positivity
    linarith
  have hlt : 1/10 + alpha * s1 / 100 < 1/10 + alpha * s2 / 100 := by
    have h1 : alpha * s1 < alpha * s2 := mul_lt_mul_of_pos_left h12 ha
    linarith
  have hd2 : 0 < 1/10 + alpha * s2 / 100 := hd1.trans hlt
  refine ⟨hd1, hd2,
    (1/10 + alpha * s1 / 100)⁻¹ + beta * (1/10),
    (1/10 + alpha * s2 / 100)⁻¹ + beta * (1/10), ?_, ?_, ?_⟩
  · unfold objective
    rw [if_neg hd1.ne']
  · unfold objective
    rw [if_neg hd2.ne']
  · have hinv : (1/10 + alpha * s2 / 100)⁻¹ < (1/10 + alpha * s1 / 100)⁻¹ :=
      inv_strictAnti₀ hd1 hlt
    linarith

/-- C5 witness: at alpha 1, beta 5, steps 0 and 1, both denominators are
positive and the reported loss strictly decreases. -/
theorem C5_objective_witness :
    0 < (1 : ℚ)/10 + 1 * 0 / 100 ∧
    0 < (1 : ℚ)/10 + 1 * 1 / 100 ∧
    ∃ v1 v2, objective 0 1 5 = some v1 ∧ objective 1 1 5 = some v2 ∧ v2 < v1 :=
  C5_objective_strictly_decreasing 1 5 0 1 (by norm_num) (by norm_num) (by norm_num)

/-! ### Claims about the training loops and configuration builders -/

/-- C6 counterexample: the claim says exactly one invocation of
trainer.train() is made per training run with no iteration logic of the
repository's own; but the DQN training run issues trainer.train() fifty
times, once per iteration of a repository-authored for loop over
range(N_ITER) with N_ITER = 50. -/
theorem C6_counterexample :
    (dqn_training_loop N_ITER).count RayCall.trainCall = 50 ∧
    ¬ (dqn_training_loop N_ITER).count RayCall.trainCall = 1 := by
  constructor
  · decide
  · decide

lemma count_train_flat (n : Nat) :
    ((List.range n).bind
      (fun _ => [RayCall.trainCall, RayCall.saveCall, RayCall.printCall])).count
        RayCall.trainCall = n := by
  induction n with
  | zero => rfl
  | succ k ih =>
    rw [List.range_succ]
    simp [List.count_append, ih]

/-- C6 amended: the reinforcement-learning training is reduced to
configuration-dictionary assignments and vendor .train() calls, but the
repository does supply the iteration logic: per training run the for loop
invokes trainer.train() exactly once per iteration, so N_ITER invocations
in total, not exactly one. -/
theorem C6_amended_train_count (n : Nat) :
    (dqn_training_loop n).count RayCall.trainCall = n := by
  unfold dqn_training_loop
  rw [List.count_append, count_train_flat,
    show ([RayCall.printCall].count RayCall.trainCall) = 0 from rfl]
  omega

/-- C7 counterexample: the claim says no operation performed by the
repository's code writes durable state outliving the notebook run; but the
DQN training loop calls trainer.save, which writes a checkpoint file, and
train_diamonds_mlflow logs metrics to the MLflow tracking store. -/
theorem C7_counterexample :
    (RayCall.saveCall ∈ dqn_training_loop N_ITER ∧
      rayWritesDurableState RayCall.saveCall = true) ∧
    (MLCall.logMetricCall "validation_loss" ∈ train_diamonds_mlflow_trace ∧
      writesDurableState (MLCall.logMetricCall "validation_loss") = true) := by
  refine ⟨⟨by decide, rfl⟩, by decide, rfl⟩

/-- C7 amended: the notebooks do create persistent state beyond the
session: the DQN run writes a checkpoint file on every one of its 50
iterations via trainer.save, and train_diamonds_mlflow creates an MLflow
run, logs 32 metric records (two on each even iteration of its 32), and
terminates the run, all durable experiment-tracking records. -/
theorem C7_amended_durable_writes :
    (dqn_training_loop N_ITER).count RayCall.saveCall = 50 ∧
    train_diamonds_mlflow_trace.countP isLogMetric = 32 ∧
    MLCall.createRunCall ∈ train_diamonds_mlflow_trace ∧
    MLCall.setTerminatedCall ∈ train_diamonds_mlflow_trace := by
  refine ⟨by decide, by decide, by decide, by decide⟩

/-- C8: for every nonzero batch_size, create_config yields steps_per_epoch
1000 // batch_size and evaluate steps 400 // batch_size, and
create_diamonds_config yields 40000 // batch_size and 13940 // batch_size
(Python floor division); the division-by-zero branch is unreachable for
nonzero batch_size, and at batch_size 0 both builders fail. -/
theorem C8_config_floor_divisions (b : Int) :
    (b ≠ 0 →
      create_config b = some ⟨b, ⟨Int.fdiv 1000 b⟩, ⟨Int.fdiv 400 b⟩⟩ ∧
      create_diamonds_config b = some ⟨b, ⟨Int.fdiv 40000 b⟩, ⟨Int.fdiv 13940 b⟩⟩) ∧
    create_config 0 = none ∧ create_diamonds_config 0 = none := by
  refine ⟨?_, ?_, ?_⟩
  · intro hb
    constructor
    · simp [create_config, pyFloorDiv, hb, NUM_TRAIN_SAMPLES, NUM_TEST_SAMPLES]
    · simp [create_diamonds_config, pyFloorDiv, hb]
  · simp [create_config, pyFloorDiv]
  · simp [create_diamonds_config, pyFloorDiv]

/-- C8 witness: at batch_size 128 the builders succeed with
steps_per_epoch 7 and steps 3, respectively 312 and 108. -/
theorem C8_config_witness :
    create_config 128 = some ⟨128, ⟨7⟩, ⟨3⟩⟩ ∧
    create_diamonds_config 128 = some ⟨128, ⟨312⟩, ⟨108⟩⟩ := by
  have h := (C8_config_floor_divisions 128).1 (by decide)
  refine ⟨?_, ?_⟩
  · rw [h.1]
    decide
  · rw [h.2]
    decide

/-- C9 counterexample: the claim says the repository defines no data
structure of its own whose shape or contents are fixed by repository code
rather than by an external library; but the configuration dictionaries
built by create_config and create_diamonds_config have their nested shape
and all of their values fixed by repository code as a function of
batch_size alone, and the y array produced by linear_dataset has its
contents fixed to twice the x values by repository code, whatever values
the library's random generator returns. -/
theorem C9_counterexample :
    create_config 128 = some ⟨128, ⟨7⟩, ⟨3⟩⟩ ∧
    create_diamonds_config 128 = some ⟨128, ⟨312⟩, ⟨108⟩⟩ ∧
    (linear_dataset 3 (fun n => (n : ℚ))).2 = [[0], [2], [4]] := by
  refine ⟨by decide, by decide, ?_⟩
  rw [linear_dataset_snd]
  norm_num [List.range_succ]

/-- C9 amended: the data entities handled by the notebooks are pass-through
references to library-native objects, except where repository code fixes
their contents itself: the y array returned by linear_dataset always equals
the x array with every entry doubled, and for every nonzero batch_size the
configuration dictionaries of create_config and create_diamonds_config are
fully determined by repository code as batch_size with the floor divisions
1000 // batch_size and 400 // batch_size, respectively 40000 // batch_size
and 13940 // batch_size. -/
theorem C9_amended_repo_fixed_contents (size : Nat) (rand : Nat → ℚ)
    (b : Int) (hb : b ≠ 0) :
    (linear_dataset size rand).2 =
      (linear_dataset size rand).1.map (fun row => row.map (fun a => 2 * a)) ∧
    create_config b = some ⟨b, ⟨Int.fdiv 1000 b⟩, ⟨Int.fdiv 400 b⟩⟩ ∧
    create_diamonds_config b = some ⟨b, ⟨Int.fdiv 40000 b⟩, ⟨Int.fdiv 13940 b⟩⟩ := by
  refine ⟨?_, ?_, ?_⟩
  · rw [linear_dataset_fst, linear_dataset_snd]
    simp [List.map_map, Function.comp]
  · simp [create_config, pyFloorDiv, hb, NUM_TRAIN_SAMPLES, NUM_TEST_SAMPLES]
  · simp [create_diamonds_config, pyFloorDiv, hb]

/-- C9 amended witness: at size 2 with the constant value source 3 and
batch_size 128, the y rows are the doubled x rows and both configurations
are determined by the floor divisions. -/
theorem C9_amended_witness :
    (linear_dataset 2 (fun _ => (3 : ℚ))).2 =
      (linear_dataset 2 (fun _ => (3 : ℚ))).1.map (fun row => row.map (fun a => 2 * a)) ∧
    create_config 128 = some ⟨128, ⟨Int.fdiv 1000 128⟩, ⟨Int.fdiv 400 128⟩⟩ ∧
    create_diamonds_config 128 = some ⟨128, ⟨Int.fdiv 40000 128⟩, ⟨Int.fdiv 13940 128⟩⟩ :=
  C9_amended_repo_fixed_contents 2 (fun _ => (3 : ℚ)) 128 (by decide)
